import Mathlib

/-!
Shallow embedding of the asynchronous reverse-DNS resolution subsystem
(src/gdns.c): the bounded circular address queue, the producer entry point
`dns_resolver`, the resolution function `reverse_ip` with its helper
`reverse_host`, one iteration of the consumer loop `dns_worker`, and the
lifecycle entry points `gdns_init` / `gdns_thread_create`.

Modelling choices:
- C `int` fields (`head`, `tail`, `size`, `capacity`) become `Int`;
  `(x + 1) % capacity` uses `Int.emod`, which agrees with the C `%` on the
  non-negative operands arising from reachable queue states.
- The fixed in-place slot array `char buffer[QUEUE_SIZE][H_SIZE]` becomes a
  `List String` of slot contents; `strcpy` into slot `i` becomes `List.set`,
  and dereferencing a `char *` that points at slot `i` becomes `slot_read`.
  `gqueue_dequeue` returns the slot index, mirroring the C code returning
  the pointer `q->buffer[q->head]` rather than a copy.
- The external libc calls `inet_pton` / `getnameinfo` and the external
  hostname store `ht_insert_hostname` are parameters of the model
  (`ResolverEnv`); the worker records its store puts in an output list.
- Mutex acquisition and condition signalling are elided: one iteration of
  the worker loop is modelled as a function of the queue state and of the
  value the `active_gdns` flag has when the worker re-acquires the mutex
  after the resolution call returns.
-/

/-- Queue state: the fields of `GDnsQueue` from gdns.h, with the slot array
as a list of slot contents. -/
structure GDnsQueue where
  head : Int
  tail : Int
  size : Int
  capacity : Int
  buffer : List String
deriving DecidableEq, Repr

/-- gdns.c `gqueue_init`: head=0, tail=-1, size=0, capacity=capacity.
The slot array is not touched (in C its initial content is indeterminate). -/
def gqueue_init (q : GDnsQueue) (capacity : Int) : GDnsQueue :=
  { q with head := 0, tail := -1, size := 0, capacity := capacity }

/-- gdns.c `gqueue_size`. -/
def gqueue_size (q : GDnsQueue) : Int :=
  q.size

/-- gdns.c `gqueue_empty`: size == 0. -/
def gqueue_empty (q : GDnsQueue) : Bool :=
  q.size == 0

/-- gdns.c `gqueue_full`: size == capacity. -/
def gqueue_full (q : GDnsQueue) : Bool :=
  q.size == q.capacity

/-- gdns.c `gqueue_enqueue`: if full return -1; else advance tail
circularly, strcpy the item into the tail slot, increment size, return 0. -/
def gqueue_enqueue (q : GDnsQueue) (item : String) : GDnsQueue × Int :=
  if gqueue_full q then (q, -1)
  else
    let t := (q.tail + 1) % q.capacity
    ({ q with tail := t, buffer := q.buffer.set t.toNat item, size := q.size + 1 }, 0)

/-- gdns.c `gqueue_find`: if empty return 0; else compare the item against
`buffer[i]` for `i` from 0 to size-1 (note: indices from 0, not from head). -/
def gqueue_find (q : GDnsQueue) (item : String) : Bool :=
  if gqueue_empty q then false
  else (List.range q.size.toNat).any (fun i => q.buffer.getD i "" == item)

/-- gdns.c `gqueue_dequeue`: if empty return NULL; else return the pointer
`q->buffer[q->head]` (modelled as the slot index), advance head circularly,
decrement size. -/
def gqueue_dequeue (q : GDnsQueue) : GDnsQueue × Option Int :=
  if gqueue_empty q then (q, none)
  else ({ q with head := (q.head + 1) % q.capacity, size := q.size - 1 }, some q.head)

/-- Dereference a pointer into the queue buffer: the string currently stored
in slot `i`. -/
def slot_read (q : GDnsQueue) (i : Int) : String :=
  q.buffer.getD i.toNat ""

/-- `gqueue_dequeue` followed by an immediate read of the returned pointer:
the string value the caller observes at the moment of the dequeue. -/
def gqueue_dequeue_str (q : GDnsQueue) : GDnsQueue × Option String :=
  let r := gqueue_dequeue q
  (r.1, r.2.map (slot_read q))

/-- gdns.c `dns_resolver` (producer): under the mutex, if the queue is not
full and the address is not found in the queue, enqueue it (and broadcast
not_empty); otherwise do nothing. -/
def dns_resolver (q : GDnsQueue) (addr : String) : GDnsQueue :=
  if !gqueue_full q && !gqueue_find q addr then (gqueue_enqueue q addr).1 else q

/-- A sequence of producer submissions with the worker paused. -/
def submitAll (q : GDnsQueue) (l : List String) : GDnsQueue :=
  l.foldl dns_resolver q

/-- Drain the queue: `n` dequeues, each immediately reading the returned
pointer, collecting the strings in dequeue order. -/
def drainAll : GDnsQueue → Nat → GDnsQueue × List String
  | q, 0 => (q, [])
  | q, n + 1 =>
    match gqueue_dequeue_str q with
    | (q', none) => (q', [])
    | (q', some s) =>
      let r := drainAll q' n
      (r.1, s :: r.2)

/-- Outcome of the external `getnameinfo` call with NI_NAMEREQD: either a
resolved name, or a nonzero status carrying its `gai_strerror` text. -/
inductive LookupOutcome where
  | success (name : String)
  | failure (err : String)
deriving DecidableEq, Repr

/-- External environment of the resolution function: the libc parsers
`inet_pton(AF_INET, _)` / `inet_pton(AF_INET6, _)` (1 on success, modelled
as `Bool`) and the blocking reverse lookup for each address family. -/
structure ResolverEnv where
  inet_pton4 : String → Bool
  inet_pton6 : String → Bool
  getnameinfo4 : String → LookupOutcome
  getnameinfo6 : String → LookupOutcome

/-- gdns.c `reverse_host`: if getnameinfo returned 0, a copy of the resolved
name; otherwise a copy of the `gai_strerror` message text. In both cases a
non-NULL string is returned. -/
def reverse_host : LookupOutcome → String
  | .success h => h
  | .failure e => e

/-- Record of a reverse lookup performed by `reverse_ip`. -/
inductive LookupCall where
  | v4 (addr : String)
  | v6 (addr : String)
deriving DecidableEq, Repr

/-- gdns.c `reverse_ip`: NULL for a NULL/empty string; else try the IPv4
parse and on success do the AF_INET lookup; else try the IPv6 parse and on
success do the AF_INET6 lookup; else NULL. The second component records the
blocking lookup calls performed. -/
def reverse_ip (env : ResolverEnv) (str : String) : Option String × List LookupCall :=
  if str = "" then (none, [])
  else if env.inet_pton4 str then
    (some (reverse_host (env.getnameinfo4 str)), [LookupCall.v4 str])
  else if env.inet_pton6 str then
    (some (reverse_host (env.getnameinfo6 str)), [LookupCall.v6 str])
  else (none, [])

/-- gdns.c `dns_worker`, one iteration of the consumer loop starting after
the not_empty wait: dequeue, release the mutex, resolve, re-acquire the
mutex; if `active_gdns` is false, free the result and break (no store put);
else if the result is non-NULL, put it in the hostname store; signal
not_full and continue. `active` is the value of `active_gdns` observed when
the mutex is re-acquired; the middle output collects the store puts of this
iteration; the last output is whether the loop continues. -/
def dns_worker_iter (env : ResolverEnv) (q : GDnsQueue) (active : Bool) :
    GDnsQueue × List (String × String) × Bool :=
  match gqueue_dequeue_str q with
  | (q', none) => (q', [], true)
  | (q', some ip) =>
    let host := (reverse_ip env ip).1
    if active then
      match host with
      | some h => (q', [(ip, h)], true)
      | none => (q', [], true)
    else (q', [], false)

/-- The consumer loop over a finite schedule of iterations, the k-th entry
giving the value `active_gdns` has when the k-th iteration re-acquires the
mutex. Stops as soon as an iteration breaks. Returns the final queue and
all store puts performed. -/
def dns_worker_run (env : ResolverEnv) : GDnsQueue → List Bool → GDnsQueue × List (String × String)
  | q, [] => (q, [])
  | q, a :: rest =>
    match dns_worker_iter env q a with
    | (q', puts, true) =>
      let r := dns_worker_run env q' rest
      (r.1, puts ++ r.2)
    | (q', puts, false) => (q', puts)

/-- Outcome of a lifecycle entry point: normal return, or process abort via
the FATAL macro with its message. -/
inductive InitOutcome where
  | ok
  | fatalError (msg : String)
deriving DecidableEq, Repr

/-- Return codes of the external pthread calls made at startup (0 on
success, nonzero on failure). -/
structure PthreadEnv where
  cond_init_not_empty : Int
  cond_init_not_full : Int
  mutex_init : Int
  create_rc : Int
deriving DecidableEq, Repr

/-- gdns.c `gdns_init`: allocate and init the queue, then init the two
condition variables and the mutex, calling FATAL (process abort) on the
first nonzero return code. -/
def gdns_init (env : PthreadEnv) : InitOutcome :=
  if env.cond_init_not_empty ≠ 0 then InitOutcome.fatalError "Failed init thread condition"
  else if env.cond_init_not_full ≠ 0 then InitOutcome.fatalError "Failed init thread condition"
  else if env.mutex_init ≠ 0 then InitOutcome.fatalError "Failed init thread mutex"
  else InitOutcome.ok

/-- gdns.c `gdns_thread_create`: set active, create the worker thread,
calling FATAL (process abort) on a nonzero pthread_create return code. -/
def gdns_thread_create (env : PthreadEnv) : InitOutcome :=
  if env.create_rc ≠ 0 then InitOutcome.fatalError "Return code from pthread_create()"
  else InitOutcome.ok

/-- The size invariant of the queue. -/
def QInv (q : GDnsQueue) : Prop :=
  0 ≤ q.size ∧ q.size ≤ q.capacity

/-- The queue state reached after the admitted submissions `p` into a fresh
queue of capacity `C` whose untouched slots still hold `b`. -/
def Qstate (C : Int) (p b : List String) : GDnsQueue :=
  ⟨0, (p.length : Int) - 1, (p.length : Int), C, p ++ b⟩

/-- Stub environment: `"10.0.0.1"` parses as IPv4 and its reverse lookup
fails with a diagnostic. -/
def stubEnvFail : ResolverEnv where
  inet_pton4 := fun s => s == "10.0.0.1"
  inet_pton6 := fun _ => false
  getnameinfo4 := fun _ => LookupOutcome.failure "Name or service not known"
  getnameinfo6 := fun _ => LookupOutcome.failure "Name or service not known"

/-- Stub environment: `"93.184.216.34"` parses as IPv4 and resolves to
`"example.com"`; `"::1"` parses as IPv6. -/
def stubEnvOk : ResolverEnv where
  inet_pton4 := fun s => s == "93.184.216.34"
  inet_pton6 := fun s => s == "::1"
  getnameinfo4 := fun _ => LookupOutcome.success "example.com"
  getnameinfo6 := fun _ => LookupOutcome.success "localhost"

/-- C10: dequeue on an empty queue returns NULL and leaves the whole queue
state (head, tail, size, buffer) unchanged, and find on an empty queue
returns 0 for every item. -/
theorem gqueue_empty_ops_noop (q : GDnsQueue) (item : String)
    (h : gqueue_empty q = true) :
    gqueue_dequeue q = (q, none) ∧ gqueue_find q item = false := by
  constructor
  · simp [gqueue_dequeue, h]
  · simp [gqueue_find, h]

/-- Witness for C10 at a concrete freshly initialized queue. -/
theorem gqueue_empty_ops_noop_witness :
    gqueue_empty (gqueue_init ⟨0, 0, 0, 0, ["", ""]⟩ 2) = true ∧
    (gqueue_dequeue (gqueue_init ⟨0, 0, 0, 0, ["", ""]⟩ 2)
        = (gqueue_init ⟨0, 0, 0, 0, ["", ""]⟩ 2, none) ∧
      gqueue_find (gqueue_init ⟨0, 0, 0, 0, ["", ""]⟩ 2) "10.0.0.1" = false) :=
  ⟨by decide, gqueue_empty_ops_noop (gqueue_init ⟨0, 0, 0, 0, ["", ""]⟩ 2) "10.0.0.1" (by decide)⟩

/-- C8: the size invariant 0 ≤ size ≤ capacity holds after init with
positive capacity and is preserved by enqueue and dequeue (the remaining
operations size, empty, full and find do not mutate the queue). -/
theorem gqueue_size_invariant (q : GDnsQueue) (capacity : Int) (item : String) :
    (0 < capacity → QInv (gqueue_init q capacity)) ∧
    (QInv q → QInv (gqueue_enqueue q item).1) ∧
    (QInv q → QInv (gqueue_dequeue q).1) := by
  refine ⟨fun h => ⟨le_refl 0, le_of_lt h⟩, fun h => ?_, fun h => ?_⟩
  · obtain ⟨h0, h1⟩ := h
    unfold gqueue_enqueue
    by_cases hf : gqueue_full q = true
    · simp only [hf, if_true]
      exact ⟨h0, h1⟩
    · have hne : q.size ≠ q.capacity := by simpa [gqueue_full] using hf
      rw [if_neg hf]
      exact ⟨show (0 : Int) ≤ q.size + 1 by omega, show q.size + 1 ≤ q.capacity by omega⟩
  · obtain ⟨h0, h1⟩ := h
    unfold gqueue_dequeue
    by_cases he : gqueue_empty q = true
    · simp only [he, if_true]
      exact ⟨h0, h1⟩
    · have hne : q.size ≠ 0 := by simpa [gqueue_empty] using he
      rw [if_neg he]
      exact ⟨show (0 : Int) ≤ q.size - 1 by omega, show q.size - 1 ≤ q.capacity by omega⟩

/-- Witness for C8 at a concrete queue of capacity 1. -/
theorem gqueue_size_invariant_witness :
    QInv (gqueue_init ⟨0, 0, 0, 0, [""]⟩ 1) ∧
    QInv (gqueue_enqueue (gqueue_init ⟨0, 0, 0, 0, [""]⟩ 1) "10.0.0.1").1 ∧
    QInv (gqueue_dequeue (gqueue_init ⟨0, 0, 0, 0, [""]⟩ 1)).1 :=
  ⟨(gqueue_size_invariant ⟨0, 0, 0, 0, [""]⟩ 1 "10.0.0.1").1 (by decide),
   (gqueue_size_invariant (gqueue_init ⟨0, 0, 0, 0, [""]⟩ 1) 1 "10.0.0.1").2.1
     ((gqueue_size_invariant ⟨0, 0, 0, 0, [""]⟩ 1 "10.0.0.1").1 (by decide)),
   (gqueue_size_invariant (gqueue_init ⟨0, 0, 0, 0, [""]⟩ 1) 1 "10.0.0.1").2.2
     ((gqueue_size_invariant ⟨0, 0, 0, 0, [""]⟩ 1 "10.0.0.1").1 (by decide))⟩

/-- C9: if initializing either condition variable or the mutex fails, or
creating the worker thread fails, startup aborts via FATAL instead of
returning normally. -/
theorem gdns_startup_aborts_on_failure (env : PthreadEnv) :
    ((env.cond_init_not_empty ≠ 0 ∨ env.cond_init_not_full ≠ 0 ∨ env.mutex_init ≠ 0) →
      ∃ msg, gdns_init env = InitOutcome.fatalError msg) ∧
    (env.create_rc ≠ 0 →
      ∃ msg, gdns_thread_create env = InitOutcome.fatalError msg) := by
  constructor
  · intro h
    unfold gdns_init
    split_ifs with h1 h2 h3
    · exact ⟨_, rfl⟩
    · exact ⟨_, rfl⟩
    · exact ⟨_, rfl⟩
    · tauto
  · intro h
    unfold gdns_thread_create
    rw [if_pos h]
    exact ⟨_, rfl⟩

/-- Witness for C9 with a failing mutex init and a failing thread create. -/
theorem gdns_startup_aborts_on_failure_witness :
    ((⟨0, 0, 1, 1⟩ : PthreadEnv).cond_init_not_empty ≠ 0 ∨
      (⟨0, 0, 1, 1⟩ : PthreadEnv).cond_init_not_full ≠ 0 ∨
      (⟨0, 0, 1, 1⟩ : PthreadEnv).mutex_init ≠ 0) ∧
    (∃ msg, gdns_init ⟨0, 0, 1, 1⟩ = InitOutcome.fatalError msg) ∧
    (∃ msg, gdns_thread_create ⟨0, 0, 1, 1⟩ = InitOutcome.fatalError msg) :=
  ⟨Or.inr (Or.inr (by decide)),
   (gdns_startup_aborts_on_failure ⟨0, 0, 1, 1⟩).1 (Or.inr (Or.inr (by decide))),
   (gdns_startup_aborts_on_failure ⟨0, 0, 1, 1⟩).2 (by decide)⟩

/-- C4: if the active flag is false when the worker re-acquires the mutex
after the resolution call, the iteration performs no store put (the outcome
is discarded, success or not, for any resolver environment) and the loop
breaks; a run whose first iteration observes active = false performs no put
at all, whatever the rest of the schedule would have been. -/
theorem dns_worker_inactive_discards_and_stops (env : ResolverEnv) (q q' : GDnsQueue)
    (ip : String) (rest : List Bool)
    (hdq : gqueue_dequeue_str q = (q', some ip)) :
    dns_worker_iter env q false = (q', [], false) ∧
    dns_worker_run env q (false :: rest) = (q', []) := by
  constructor
  · simp [dns_worker_iter, hdq]
  · simp [dns_worker_run, dns_worker_iter, hdq]

/-- Witness for C4: the resolution succeeds with a hostname, yet nothing is
published and the worker stops. -/
theorem dns_worker_inactive_discards_and_stops_witness :
    gqueue_dequeue_str ⟨0, 0, 1, 1, ["93.184.216.34"]⟩
      = (⟨0, 0, 0, 1, ["93.184.216.34"]⟩, some "93.184.216.34") ∧
    (dns_worker_iter stubEnvOk ⟨0, 0, 1, 1, ["93.184.216.34"]⟩ false
        = (⟨0, 0, 0, 1, ["93.184.216.34"]⟩, [], false) ∧
      dns_worker_run stubEnvOk ⟨0, 0, 1, 1, ["93.184.216.34"]⟩ [false, true, true]
        = (⟨0, 0, 0, 1, ["93.184.216.34"]⟩, [])) :=
  ⟨by decide,
   dns_worker_inactive_discards_and_stops stubEnvOk ⟨0, 0, 1, 1, ["93.184.216.34"]⟩
     ⟨0, 0, 0, 1, ["93.184.216.34"]⟩ "93.184.216.34" [true, true] (by decide)⟩

/-- C1 counterexample: the queue holds the address whose parsed reverse
lookup fails; the worker nevertheless performs a store put for that
address, publishing the resolver's diagnostic text as the hostname
(reverse_host returns the gai_strerror text, reverse_ip passes it on
non-NULL, and dns_worker inserts every non-NULL result). -/
theorem dns_worker_publishes_failure_counterexample :
    (dns_worker_iter stubEnvFail ⟨0, 0, 1, 1, ["10.0.0.1"]⟩ true).2.1
      = [("10.0.0.1", "Name or service not known")] ∧
    (dns_worker_iter stubEnvFail ⟨0, 0, 1, 1, ["10.0.0.1"]⟩ true).2.1 ≠ [] := by
  decide

/-- C1 amended: on a lookup Failure for a parsed address the worker does
perform a store put, publishing the failure's diagnostic text as the
hostname; no put occurs only when resolution produced nothing, i.e. the
address parses as neither IPv4 nor IPv6. -/
theorem dns_worker_failure_put_behavior (env : ResolverEnv) (q q' : GDnsQueue)
    (ip err : String) (hdq : gqueue_dequeue_str q = (q', some ip)) :
    (ip ≠ "" → env.inet_pton4 ip = true →
      env.getnameinfo4 ip = LookupOutcome.failure err →
      dns_worker_iter env q true = (q', [(ip, err)], true)) ∧
    (env.inet_pton4 ip = false → env.inet_pton6 ip = false →
      dns_worker_iter env q true = (q', [], true)) := by
  constructor
  · intro hne h4 hf
    simp [dns_worker_iter, hdq, reverse_ip, hne, h4, hf, reverse_host]
  · intro h4 h6
    by_cases hne : ip = ""
    · simp [dns_worker_iter, hdq, reverse_ip, hne]
    · simp [dns_worker_iter, hdq, reverse_ip, hne, h4, h6]

/-- Witness for the amended C1: the failure diagnostic for `"10.0.0.1"` is
published to the store. -/
theorem dns_worker_failure_put_behavior_witness :
    gqueue_dequeue_str ⟨0, 0, 1, 1, ["10.0.0.1"]⟩
      = (⟨0, 0, 0, 1, ["10.0.0.1"]⟩, some "10.0.0.1") ∧
    ("10.0.0.1" : String) ≠ "" ∧
    stubEnvFail.inet_pton4 "10.0.0.1" = true ∧
    stubEnvFail.getnameinfo4 "10.0.0.1"
      = LookupOutcome.failure "Name or service not known" ∧
    dns_worker_iter stubEnvFail ⟨0, 0, 1, 1, ["10.0.0.1"]⟩ true
      = (⟨0, 0, 0, 1, ["10.0.0.1"]⟩,
         [("10.0.0.1", "Name or service not known")], true) :=
  ⟨by decide, by decide, by decide, by decide,
   (dns_worker_failure_put_behavior stubEnvFail ⟨0, 0, 1, 1, ["10.0.0.1"]⟩
       ⟨0, 0, 0, 1, ["10.0.0.1"]⟩ "10.0.0.1" "Name or service not known"
       (by decide)).1 (by decide) (by decide) (by decide)⟩

/-- C7: the resolution function tries the IPv4 parse first and the IPv6
parse only if the IPv4 parse fails; when neither parses (or the string is
empty) it returns NULL having performed no lookup call; and processing such
an unparseable dequeued address publishes nothing to the store. -/
theorem reverse_ip_dispatch_and_unparseable (env : ResolverEnv) (str : String) :
    (env.inet_pton4 str = false → env.inet_pton6 str = false →
      reverse_ip env str = (none, [])) ∧
    (str ≠ "" → env.inet_pton4 str = true →
      reverse_ip env str
        = (some (reverse_host (env.getnameinfo4 str)), [LookupCall.v4 str])) ∧
    (str ≠ "" → env.inet_pton4 str = false → env.inet_pton6 str = true →
      reverse_ip env str
        = (some (reverse_host (env.getnameinfo6 str)), [LookupCall.v6 str])) ∧
    (∀ q q' : GDnsQueue, env.inet_pton4 str = false → env.inet_pton6 str = false →
      gqueue_dequeue_str q = (q', some str) →
      dns_worker_iter env q true = (q', [], true)) := by
  refine ⟨fun h4 h6 => ?_, fun hne h4 => ?_, fun hne h4 h6 => ?_,
    fun q q' h4 h6 hdq => ?_⟩
  · by_cases hne : str = ""
    · simp [reverse_ip, hne]
    · simp [reverse_ip, hne, h4, h6]
  · simp [reverse_ip, hne, h4]
  · simp [reverse_ip, hne, h4, h6]
  · by_cases hne : str = ""
    · simp [dns_worker_iter, hdq, reverse_ip, hne]
    · simp [dns_worker_iter, hdq, reverse_ip, hne, h4, h6]

/-- Witness for C7: `"not-an-ip"` parses as neither family, resolution
returns NULL with no lookup call, and the worker publishes nothing for it;
`"93.184.216.34"` takes the IPv4 branch. -/
theorem reverse_ip_dispatch_and_unparseable_witness :
    stubEnvOk.inet_pton4 "not-an-ip" = false ∧
    stubEnvOk.inet_pton6 "not-an-ip" = false ∧
    reverse_ip stubEnvOk "not-an-ip" = (none, []) ∧
    gqueue_dequeue_str ⟨0, 0, 1, 2, ["not-an-ip", ""]⟩
      = (⟨1, 0, 0, 2, ["not-an-ip", ""]⟩, some "not-an-ip") ∧
    dns_worker_iter stubEnvOk ⟨0, 0, 1, 2, ["not-an-ip", ""]⟩ true
      = (⟨1, 0, 0, 2, ["not-an-ip", ""]⟩, [], true) ∧
    ("93.184.216.34" : String) ≠ "" ∧
    stubEnvOk.inet_pton4 "93.184.216.34" = true ∧
    reverse_ip stubEnvOk "93.184.216.34"
      = (some (reverse_host (stubEnvOk.getnameinfo4 "93.184.216.34")),
         [LookupCall.v4 "93.184.216.34"]) :=
  ⟨by decide, by decide,
   (reverse_ip_dispatch_and_unparseable stubEnvOk "not-an-ip").1 (by decide) (by decide),
   by decide,
   (reverse_ip_dispatch_and_unparseable stubEnvOk "not-an-ip").2.2.2
     ⟨0, 0, 1, 2, ["not-an-ip", ""]⟩ ⟨1, 0, 0, 2, ["not-an-ip", ""]⟩
     (by decide) (by decide) (by decide),
   by decide, by decide,
   (reverse_ip_dispatch_and_unparseable stubEnvOk "93.184.216.34").2.1
     (by decide) (by decide)⟩

/-- C3 counterexample: from a fresh capacity-2 queue, submit A then B, then
dequeue; the dequeue returns a pointer to slot 0, whose content is "A". A
submit admitted after the take wraps the tail onto slot 0 and overwrites
it: the same pointer now reads "C", so the dequeued string is not an
independently owned copy. -/
theorem gqueue_dequeue_no_copy_counterexample :
    submitAll (gqueue_init ⟨0, 0, 0, 0, ["", ""]⟩ 2) ["A", "B"]
      = ⟨0, 1, 2, 2, ["A", "B"]⟩ ∧
    gqueue_dequeue ⟨0, 1, 2, 2, ["A", "B"]⟩ = (⟨1, 1, 1, 2, ["A", "B"]⟩, some 0) ∧
    slot_read ⟨1, 1, 1, 2, ["A", "B"]⟩ 0 = "A" ∧
    (gqueue_enqueue ⟨1, 1, 1, 2, ["A", "B"]⟩ "C").1 = ⟨1, 0, 2, 2, ["C", "B"]⟩ ∧
    slot_read ⟨1, 0, 2, 2, ["C", "B"]⟩ 0 = "C" ∧
    ("C" : String) ≠ "A" := by
  decide

lemma getD_set_ne (l : List String) (n m : Nat) (a : String) (h : n ≠ m) :
    (l.set n a).getD m "" = l.getD m "" := by
  simp [List.getD, List.getElem?_set_ne h]

/-- C3 amended: the dequeued pointer's string survives a later enqueue only
while the enqueue's target slot (the circularly advanced tail) is a
different slot; an enqueue never alters any slot other than its target. -/
theorem gqueue_enqueue_preserves_other_slots (q : GDnsQueue) (i : Int) (x : String)
    (h : ((q.tail + 1) % q.capacity).toNat ≠ i.toNat) :
    slot_read (gqueue_enqueue q x).1 i = slot_read q i := by
  unfold gqueue_enqueue slot_read
  by_cases hf : gqueue_full q = true
  · simp [hf]
  · rw [if_neg hf]
    exact getD_set_ne q.buffer _ _ x h

/-- Witness for the amended C3: enqueueing "C" targets slot 0 and leaves
slot 1 (holding "B") unchanged. -/
theorem gqueue_enqueue_preserves_other_slots_witness :
    (((1 : Int) + 1) % 2).toNat ≠ (1 : Int).toNat ∧
    slot_read (gqueue_enqueue ⟨1, 1, 1, 2, ["A", "B"]⟩ "C").1 1
      = slot_read ⟨1, 1, 1, 2, ["A", "B"]⟩ 1 :=
  ⟨by decide, gqueue_enqueue_preserves_other_slots ⟨1, 1, 1, 2, ["A", "B"]⟩ 1 "C" (by decide)⟩

/-- C2: evaluation at the failing input. From a fresh capacity-2 queue:
submit "A", submit "B", take (returning slot 0, the string "A", and leaving
head = 1). The single live entry is "B" in slot 1, yet gqueue_find scans
slots 0..size-1 = {0} only: it misses the live "B" (returns 0) while
matching the stale "A" (returns 1), so dns_resolver admits the duplicate
"B" and the live entries become "B", "B". -/
theorem gqueue_find_misses_live_entry :
    submitAll (gqueue_init ⟨0, 0, 0, 0, ["", ""]⟩ 2) ["A", "B"]
      = ⟨0, 1, 2, 2, ["A", "B"]⟩ ∧
    gqueue_dequeue ⟨0, 1, 2, 2, ["A", "B"]⟩ = (⟨1, 1, 1, 2, ["A", "B"]⟩, some 0) ∧
    slot_read ⟨1, 1, 1, 2, ["A", "B"]⟩ 1 = "B" ∧
    gqueue_find ⟨1, 1, 1, 2, ["A", "B"]⟩ "B" = false ∧
    gqueue_find ⟨1, 1, 1, 2, ["A", "B"]⟩ "A" = true ∧
    dns_resolver ⟨1, 1, 1, 2, ["A", "B"]⟩ "B" = ⟨1, 0, 2, 2, ["B", "B"]⟩ := by
  decide

lemma set_at_append (p : List String) (bh x : String) (bt : List String) :
    (p ++ bh :: bt).set p.length x = p ++ x :: bt := by
  induction p with
  | nil => rfl
  | cons a p ih =>
    show a :: (p ++ bh :: bt).set p.length x = a :: (p ++ x :: bt)
    rw [ih]

lemma gqueue_find_prefix_false (C : Int) (p b : List String) (x : String)
    (hx : x ∉ p) : gqueue_find (Qstate C p b) x = false := by
  unfold gqueue_find gqueue_empty Qstate
  by_cases hp : p.length = 0
  · simp [hp]
  · have h0 : ¬((((p.length : Int) : Int) == 0) = true) := by
      simp only [beq_iff_eq]
      exact_mod_cast hp
    rw [if_neg h0]
    simp only [Int.toNat_natCast, List.any_eq_false, List.mem_range]
    intro i hi
    have hgl : (p ++ b).getD i "" = p.getD i "" := by
      simp [List.getD, List.getElem?_append_left hi]
    have hpi : p.getD i "" ∈ p := by
      rw [List.getD_eq_getElem p "" hi]
      exact List.getElem_mem hi
    rw [hgl]
    simp only [beq_iff_eq]
    exact fun heq => hx (heq ▸ hpi)

lemma submitAll_spec (C : Int) (l : List String) :
    ∀ p b : List String, 0 < C → (p ++ l).Nodup →
      p.length + l.length ≤ C.toNat → p.length + b.length = C.toNat →
      submitAll (Qstate C p b) l = Qstate C (p ++ l) (b.drop l.length) := by
  induction l with
  | nil =>
    intro p b hC hnd hlen hb
    simp [submitAll]
  | cons x t ih =>
    intro p b hC hnd hlen hb
    simp only [List.length_cons] at hlen
    cases b with
    | nil =>
      simp only [List.length_nil, Nat.add_zero] at hb
      omega
    | cons bh bt =>
      have hCt : (C.toNat : Int) = C := Int.toNat_of_nonneg hC.le
      have hplt : (p.length : Int) < C := by
        have h1 : p.length < C.toNat := by omega
        omega
      have hfull : gqueue_full (Qstate C p (bh :: bt)) = false := by
        simp only [gqueue_full, Qstate, beq_eq_false_iff_ne, ne_eq]
        omega
      have hx : x ∉ p := by
        have hd := List.disjoint_of_nodup_append hnd
        exact fun hmem => hd hmem (List.mem_cons_self x t)
      have hfind : gqueue_find (Qstate C p (bh :: bt)) x = false :=
        gqueue_find_prefix_false C p (bh :: bt) x hx
      have hmod : ((p.length : Int) - 1 + 1) % C = (p.length : Int) := by
        have he : (p.length : Int) - 1 + 1 = (p.length : Int) := by ring
        rw [he]
        exact Int.emod_eq_of_lt (Int.natCast_nonneg _) hplt
      have henq : dns_resolver (Qstate C p (bh :: bt)) x = Qstate C (p ++ [x]) bt := by
        unfold dns_resolver
        rw [hfull, hfind]
        simp only [Bool.not_false, Bool.and_self, if_true]
        unfold gqueue_enqueue
        rw [hfull]
        simp only [Bool.false_eq_true, if_false, Qstate, hmod, Int.toNat_natCast,
          set_at_append]
        simp only [GDnsQueue.mk.injEq, List.length_append, List.length_singleton,
          List.append_assoc, List.singleton_append]
        refine ⟨trivial, by push_cast; ring, by push_cast; ring, trivial, trivial⟩
      have hstep : submitAll (Qstate C p (bh :: bt)) (x :: t)
          = submitAll (dns_resolver (Qstate C p (bh :: bt)) x) t := rfl
      have hnd' : ((p ++ [x]) ++ t).Nodup := by
        simpa [List.append_assoc] using hnd
      have hlen' : (p ++ [x]).length + t.length ≤ C.toNat := by
        simp only [List.length_append, List.length_singleton]
        omega
      have hb' : (p ++ [x]).length + bt.length = C.toNat := by
        simp only [List.length_cons] at hb
        simp only [List.length_append, List.length_singleton]
        omega
      have hrec := ih (p ++ [x]) bt hC hnd' hlen' hb'
      rw [hstep, henq, hrec]
      simp [Qstate, List.append_assoc]

lemma drainAll_no_wrap (C : Int) (B : List String) :
    ∀ d k : Nat, ∀ t : Int, 0 < C → (k : Int) + d ≤ C → B.length = C.toNat →
      (drainAll ⟨(k : Int), t, (d : Int), C, B⟩ d).2 = (B.drop k).take d := by
  intro d
  induction d with
  | zero =>
    intro k t hC hkd hB
    simp [drainAll]
  | succ d ih =>
    intro k t hC hkd hB
    have hCt : (C.toNat : Int) = C := Int.toNat_of_nonneg hC.le
    have hkB : k < B.length := by
      rw [hB]; omega
    have hne : ¬(gqueue_empty ⟨(k : Int), t, ((d + 1 : Nat) : Int), C, B⟩ = true) := by
      simp only [gqueue_empty, beq_iff_eq]
      push_cast
      omega
    have hdq : gqueue_dequeue_str ⟨(k : Int), t, ((d + 1 : Nat) : Int), C, B⟩
        = (⟨((k : Int) + 1) % C, t, ((d + 1 : Nat) : Int) - 1, C, B⟩, some (B.getD k "")) := by
      simp only [gqueue_dequeue_str, gqueue_dequeue]
      rw [if_neg hne]
      simp [slot_read]
    have hrhs : (B.drop k).take (d + 1) = B[k] :: (B.drop (k + 1)).take d := by
      rw [List.drop_eq_getElem_cons hkB, List.take_succ_cons]
    have hgd : B.getD k "" = B[k] := List.getD_eq_getElem B "" hkB
    show (drainAll ⟨(k : Int), t, ((d + 1 : Nat) : Int), C, B⟩ (d + 1)).2 = _
    rw [drainAll, hdq]
    by_cases hlt : (k : Int) + 1 < C
    · have hmod : ((k : Int) + 1) % C = ((k + 1 : Nat) : Int) := by
        push_cast
        exact Int.emod_eq_of_lt (by omega) hlt
      have hsz : ((d + 1 : Nat) : Int) - 1 = (d : Int) := by push_cast; ring
      rw [hmod, hsz]
      simp only [hrhs, hgd]
      rw [ih (k + 1) t hC (by push_cast; push_cast at hkd; omega) hB]
    · have hd0 : d = 0 := by omega
      subst hd0
      simp only [drainAll]
      rw [hrhs, hgd]
      simp [drainAll]

/-- C5: FIFO order. Every sequence of distinct submissions into a fresh
queue of sufficient capacity with the worker paused is admitted in full
(size ends at the number of submissions), and draining the queue returns
exactly that sequence in admission order. -/
theorem gqueue_fifo_order (C : Int) (b l : List String)
    (hC : 0 < C) (hnd : l.Nodup) (hlen : l.length ≤ C.toNat) (hb : b.length = C.toNat) :
    gqueue_size (submitAll (gqueue_init ⟨0, 0, 0, 0, b⟩ C) l) = (l.length : Int) ∧
    (drainAll (submitAll (gqueue_init ⟨0, 0, 0, 0, b⟩ C) l) l.length).2 = l := by
  have hinit : gqueue_init ⟨0, 0, 0, 0, b⟩ C = Qstate C [] b := by
    simp [gqueue_init, Qstate]
  have hs := submitAll_spec C l [] b hC (by simpa using hnd) (by simpa using hlen)
    (by simpa using hb)
  simp only [List.nil_append] at hs
  rw [hinit, hs]
  constructor
  · simp [gqueue_size, Qstate]
  · have hCt : (C.toNat : Int) = C := Int.toNat_of_nonneg hC.le
    have hB : (l ++ b.drop l.length).length = C.toNat := by
      simp only [List.length_append, List.length_drop]
      omega
    have hkd : ((0 : Nat) : Int) + (l.length : Int) ≤ C := by
      push_cast
      omega
    have hd := drainAll_no_wrap C (l ++ b.drop l.length) l.length 0
      ((l.length : Int) - 1) hC hkd hB
    have hq : Qstate C l (b.drop l.length)
        = ⟨((0 : Nat) : Int), (l.length : Int) - 1, (l.length : Int), C,
           l ++ b.drop l.length⟩ := by
      simp [Qstate]
    rw [hq, hd, List.drop_zero]
    exact List.take_left l _

/-- Witness for C5: submitting A, B, C into a fresh capacity-3 queue and
draining yields A, B, C in order. -/
theorem gqueue_fifo_order_witness :
    (0 : Int) < 3 ∧ (["A", "B", "C"] : List String).Nodup ∧
    (["A", "B", "C"] : List String).length ≤ (3 : Int).toNat ∧
    (["", "", ""] : List String).length = (3 : Int).toNat ∧
    (gqueue_size (submitAll (gqueue_init ⟨0, 0, 0, 0, ["", "", ""]⟩ 3) ["A", "B", "C"])
        = ((["A", "B", "C"] : List String).length : Int) ∧
      (drainAll (submitAll (gqueue_init ⟨0, 0, 0, 0, ["", "", ""]⟩ 3) ["A", "B", "C"])
          (["A", "B", "C"] : List String).length).2 = ["A", "B", "C"]) :=
  ⟨by decide, by decide, by decide, by decide,
   gqueue_fifo_order 3 ["", "", ""] ["A", "B", "C"]
     (by decide) (by decide) (by decide) (by decide)⟩

/-- C6: from a fresh queue of capacity C, C submissions of distinct
addresses are all admitted (the size reaches C); a further submission of a
distinct address is rejected, leaving the queue state (head, tail, size and
buffer contents) entirely unchanged. -/
theorem gqueue_full_submission_rejected (C : Int) (b l : List String) (x : String)
    (hC : 0 < C) (hnd : l.Nodup) (hlen : l.length = C.toNat) (hb : b.length = C.toNat)
    (hx : x ∉ l) :
    gqueue_size (submitAll (gqueue_init ⟨0, 0, 0, 0, b⟩ C) l) = C ∧
    dns_resolver (submitAll (gqueue_init ⟨0, 0, 0, 0, b⟩ C) l) x
      = submitAll (gqueue_init ⟨0, 0, 0, 0, b⟩ C) l := by
  have hinit : gqueue_init ⟨0, 0, 0, 0, b⟩ C = Qstate C [] b := by
    simp [gqueue_init, Qstate]
  have hs := submitAll_spec C l [] b hC (by simpa using hnd) (by simpa using hlen.le)
    (by simpa using hb)
  simp only [List.nil_append] at hs
  have hCt : (C.toNat : Int) = C := Int.toNat_of_nonneg hC.le
  rw [hinit, hs]
  have hfull : gqueue_full (Qstate C l (b.drop l.length)) = true := by
    simp only [gqueue_full, Qstate, beq_iff_eq]
    omega
  refine ⟨?_, ?_⟩
  · simp only [gqueue_size, Qstate]
    omega
  · unfold dns_resolver
    rw [hfull]
    simp

/-- Witness for C6: a fresh capacity-2 queue admits "A" and "B"; the third
distinct submission "10.0.0.1" is rejected without any state change. -/
theorem gqueue_full_submission_rejected_witness :
    (0 : Int) < 2 ∧ (["A", "B"] : List String).Nodup ∧
    (["A", "B"] : List String).length = (2 : Int).toNat ∧
    (["", ""] : List String).length = (2 : Int).toNat ∧
    ("10.0.0.1" : String) ∉ (["A", "B"] : List String) ∧
    (gqueue_size (submitAll (gqueue_init ⟨0, 0, 0, 0, ["", ""]⟩ 2) ["A", "B"]) = 2 ∧
      dns_resolver (submitAll (gqueue_init ⟨0, 0, 0, 0, ["", ""]⟩ 2) ["A", "B"]) "10.0.0.1"
        = submitAll (gqueue_init ⟨0, 0, 0, 0, ["", ""]⟩ 2) ["A", "B"]) :=
  ⟨by decide, by decide, by decide, by decide, by decide,
   gqueue_full_submission_rejected 2 ["", ""] ["A", "B"] "10.0.0.1"
     (by decide) (by decide) (by decide) (by decide) (by decide)⟩
